import Mathlib

/-
Shallow embedding of CaptainHook (main.go, current revision) in Lean 4.

CaptainHook is a GitHub-webhook-to-IRC notifier.  The embedding below
translates, from the source:
  - the MIRC color wrapping function MIRCColor;
  - the (deliberately incomplete) GitHub payload structs and the behaviour of
    encoding/json Unmarshal on them, over a small JSON value domain;
  - the git.io URL shortener ShortenGHUrl, with the HTTP POST outcome passed
    in as data and a nil-pointer dereference modelled as Option.none;
  - the HTTP webhook handler, returning the list of messages it enqueues on
    the ircmsgs channel for one request;
  - the PRIVMSG mention handler and the IRC event handlers as an
    event-to-effect function;
  - the ircmsgs channel (a Go buffered channel of capacity 10) as a bounded
    FIFO queue with blocking enqueue.
-/

namespace CaptainHook

/-! ## MIRC colors (source: type MIRCColorType int, const iota block) -/

/-- Go: type MIRCColorType int. -/
abbrev MIRCColorType := Int

def ColorWhite : MIRCColorType := 0
def ColorBlack : MIRCColorType := 1
def ColorBlue : MIRCColorType := 2
def ColorGreen : MIRCColorType := 3
def ColorRed : MIRCColorType := 4
def ColorBrown : MIRCColorType := 5
def ColorPurple : MIRCColorType := 6
def ColorOrange : MIRCColorType := 7
def ColorYellow : MIRCColorType := 8
def ColorLightGreen : MIRCColorType := 9
def ColorCyan : MIRCColorType := 10
def ColorLightCyan : MIRCColorType := 11
def ColorLightBlue : MIRCColorType := 12
def ColorPink : MIRCColorType := 13
def ColorGrey : MIRCColorType := 14
def ColorLightGrey : MIRCColorType := 15

/-- The MIRC control byte, Go: string(Char 3). -/
def ctrlChar : Char := Char.ofNat 3

def ctrlStr : String := String.singleton ctrlChar

/-- Source: func MIRCColor(in string, fg MIRCColorType) string
    returns string(ctrl) + strconv.Itoa(int(fg)) + "," + "99" + in + string(ctrl).
    The background color 99 (transparent) is explicit so that strings starting
    with digits render correctly. -/
def MIRCColor (s : String) (fg : MIRCColorType) : String :=
  ctrlStr ++ toString fg ++ "," ++ "99" ++ s ++ ctrlStr

/-- Two-digit zero padding of a color code, as the specification describes it.
    Modelled from the spec: the spec asks for "a two-digit zero-padded
    foreground color code"; the source has no such padding helper. -/
def zeroPad2 (n : MIRCColorType) : String :=
  if 0 ≤ n ∧ n < 10 then "0" ++ toString n else toString n

/-- Color wrapping as worded by the specification, for comparison with the
    source function MIRCColor.  Modelled from the spec: "a leading control
    byte, a two-digit zero-padded foreground color code, the text, and a
    trailing reset control byte (no closing foreground code needed)". -/
def specColorWrap (s : String) (fg : MIRCColorType) : String :=
  ctrlStr ++ zeroPad2 fg ++ s ++ ctrlStr

/-! ## GitHub payload structs (source: "Various (partial!) Github object structs") -/

structure User where
  login : String
deriving DecidableEq, Repr

structure Repo where
  name : String
  htmlURL : String
deriving DecidableEq, Repr

structure Issue where
  number : Int
  title : String
  htmlURL : String
deriving DecidableEq, Repr

structure PRQ where
  number : Int
  title : String
  htmlURL : String
deriving DecidableEq, Repr

structure IssueEvent where
  action : String
  issue : Issue
  sender : User
  repository : Repo
deriving DecidableEq, Repr

structure PRQEvent where
  action : String
  sender : User
  prq : PRQ
  repository : Repo
deriving DecidableEq, Repr

structure RepositoryEvent where
  action : String
  sender : User
  repository : Repo
deriving DecidableEq, Repr

/-- Go zero value of User (var of struct type). -/
def User.zero : User := ⟨""⟩

def Repo.zero : Repo := ⟨"", ""⟩

def Issue.zero : Issue := ⟨0, "", ""⟩

def PRQ.zero : PRQ := ⟨0, "", ""⟩

def IssueEvent.zero : IssueEvent := ⟨"", Issue.zero, User.zero, Repo.zero⟩

def PRQEvent.zero : PRQEvent := ⟨"", User.zero, PRQ.zero, Repo.zero⟩

def RepositoryEvent.zero : RepositoryEvent := ⟨"", User.zero, Repo.zero⟩

/-! ## JSON values and the behaviour of encoding/json Unmarshal

The handler calls json.Unmarshal(body, &event).  We embed the stdlib
behaviour on the structs above over a small JSON value domain: an object is
decoded field by field in order; an unknown key is skipped silently; a value
of the wrong type for a field records an error but decoding continues with
the remaining keys, leaving that field at its current value.  Unmarshal hence
returns both a (possibly partially populated) value and an error flag, and a
caller that ignores the error still sees the populated fields. -/

inductive JValue where
  | str (s : String)
  | num (n : Int)
  | bool (b : Bool)
  | obj (fields : List (String × JValue))

/-- Case folding of a JSON key, embedding the case-insensitive field-name
    match of encoding/json (tags such as "html_url" are matched the same
    way). -/
def lowerChars (s : String) : List Char := s.toList.map Char.toLower

def keyIs (k : String) (fieldName : String) : Bool :=
  lowerChars k == fieldName.toList

/-- Decode a JSON value into a Go string field: a mismatched type records an
    error and leaves the field unchanged. -/
def decodeString (v : JValue) (cur : String) : String × Bool :=
  match v with
  | .str s => (s, true)
  | _ => (cur, false)

/-- Decode a JSON value into a Go int field. -/
def decodeInt (v : JValue) (cur : Int) : Int × Bool :=
  match v with
  | .num n => (n, true)
  | _ => (cur, false)

def userFieldStep (acc : User × Bool) (kv : String × JValue) : User × Bool :=
  if keyIs kv.1 "login" then
    let r := decodeString kv.2 acc.1.login
    (⟨r.1⟩, acc.2 && r.2)
  else acc

def unmarshalUserFields (fs : List (String × JValue)) (init : User × Bool) : User × Bool :=
  fs.foldl userFieldStep init

def decodeUser (v : JValue) (cur : User) : User × Bool :=
  match v with
  | .obj fs => unmarshalUserFields fs (cur, true)
  | _ => (cur, false)

def repoFieldStep (acc : Repo × Bool) (kv : String × JValue) : Repo × Bool :=
  if keyIs kv.1 "name" then
    let r := decodeString kv.2 acc.1.name
    ({ acc.1 with name := r.1 }, acc.2 && r.2)
  else if keyIs kv.1 "html_url" then
    let r := decodeString kv.2 acc.1.htmlURL
    ({ acc.1 with htmlURL := r.1 }, acc.2 && r.2)
  else acc

def unmarshalRepoFields (fs : List (String × JValue)) (init : Repo × Bool) : Repo × Bool :=
  fs.foldl repoFieldStep init

def decodeRepo (v : JValue) (cur : Repo) : Repo × Bool :=
  match v with
  | .obj fs => unmarshalRepoFields fs (cur, true)
  | _ => (cur, false)

def issueFieldStep (acc : Issue × Bool) (kv : String × JValue) : Issue × Bool :=
  if keyIs kv.1 "number" then
    let r := decodeInt kv.2 acc.1.number
    ({ acc.1 with number := r.1 }, acc.2 && r.2)
  else if keyIs kv.1 "title" then
    let r := decodeString kv.2 acc.1.title
    ({ acc.1 with title := r.1 }, acc.2 && r.2)
  else if keyIs kv.1 "html_url" then
    let r := decodeString kv.2 acc.1.htmlURL
    ({ acc.1 with htmlURL := r.1 }, acc.2 && r.2)
  else acc

def unmarshalIssueFields (fs : List (String × JValue)) (init : Issue × Bool) : Issue × Bool :=
  fs.foldl issueFieldStep init

def decodeIssue (v : JValue) (cur : Issue) : Issue × Bool :=
  match v with
  | .obj fs => unmarshalIssueFields fs (cur, true)
  | _ => (cur, false)

/-- One key of a pull-request object decoded into the PRQ struct.  PRQ has
    fields Number, Title, HTMLURL (tag "html_url"); every other key — the
    merged flag included — matches no field and is skipped without error. -/
def prqFieldStep (acc : PRQ × Bool) (kv : String × JValue) : PRQ × Bool :=
  if keyIs kv.1 "number" then
    let r := decodeInt kv.2 acc.1.number
    ({ acc.1 with number := r.1 }, acc.2 && r.2)
  else if keyIs kv.1 "title" then
    let r := decodeString kv.2 acc.1.title
    ({ acc.1 with title := r.1 }, acc.2 && r.2)
  else if keyIs kv.1 "html_url" then
    let r := decodeString kv.2 acc.1.htmlURL
    ({ acc.1 with htmlURL := r.1 }, acc.2 && r.2)
  else acc

def unmarshalPRQFields (fs : List (String × JValue)) (init : PRQ × Bool) : PRQ × Bool :=
  fs.foldl prqFieldStep init

def decodePRQ (v : JValue) (cur : PRQ) : PRQ × Bool :=
  match v with
  | .obj fs => unmarshalPRQFields fs (cur, true)
  | _ => (cur, false)

def prqEventFieldStep (acc : PRQEvent × Bool) (kv : String × JValue) : PRQEvent × Bool :=
  if keyIs kv.1 "action" then
    let r := decodeString kv.2 acc.1.action
    ({ acc.1 with action := r.1 }, acc.2 && r.2)
  else if keyIs kv.1 "sender" then
    let r := decodeUser kv.2 acc.1.sender
    ({ acc.1 with sender := r.1 }, acc.2 && r.2)
  else if keyIs kv.1 "pull_request" then
    let r := decodePRQ kv.2 acc.1.prq
    ({ acc.1 with prq := r.1 }, acc.2 && r.2)
  else if keyIs kv.1 "repository" then
    let r := decodeRepo kv.2 acc.1.repository
    ({ acc.1 with repository := r.1 }, acc.2 && r.2)
  else acc

/-- json.Unmarshal(body, &event) for event : PRQEvent starting from the Go
    zero value; returns the populated value and an ok flag (false when
    Unmarshal would return a non-nil error). -/
def unmarshalPRQEvent (v : JValue) : PRQEvent × Bool :=
  match v with
  | .obj fs => fs.foldl prqEventFieldStep (PRQEvent.zero, true)
  | _ => (PRQEvent.zero, false)

def issueEventFieldStep (acc : IssueEvent × Bool) (kv : String × JValue) : IssueEvent × Bool :=
  if keyIs kv.1 "action" then
    let r := decodeString kv.2 acc.1.action
    ({ acc.1 with action := r.1 }, acc.2 && r.2)
  else if keyIs kv.1 "issue" then
    let r := decodeIssue kv.2 acc.1.issue
    ({ acc.1 with issue := r.1 }, acc.2 && r.2)
  else if keyIs kv.1 "sender" then
    let r := decodeUser kv.2 acc.1.sender
    ({ acc.1 with sender := r.1 }, acc.2 && r.2)
  else if keyIs kv.1 "repository" then
    let r := decodeRepo kv.2 acc.1.repository
    ({ acc.1 with repository := r.1 }, acc.2 && r.2)
  else acc

def unmarshalIssueEvent (v : JValue) : IssueEvent × Bool :=
  match v with
  | .obj fs => fs.foldl issueEventFieldStep (IssueEvent.zero, true)
  | _ => (IssueEvent.zero, false)

def repositoryEventFieldStep (acc : RepositoryEvent × Bool) (kv : String × JValue) :
    RepositoryEvent × Bool :=
  if keyIs kv.1 "action" then
    let r := decodeString kv.2 acc.1.action
    ({ acc.1 with action := r.1 }, acc.2 && r.2)
  else if keyIs kv.1 "sender" then
    let r := decodeUser kv.2 acc.1.sender
    ({ acc.1 with sender := r.1 }, acc.2 && r.2)
  else if keyIs kv.1 "repository" then
    let r := decodeRepo kv.2 acc.1.repository
    ({ acc.1 with repository := r.1 }, acc.2 && r.2)
  else acc

def unmarshalRepositoryEvent (v : JValue) : RepositoryEvent × Bool :=
  match v with
  | .obj fs => fs.foldl repositoryEventFieldStep (RepositoryEvent.zero, true)
  | _ => (RepositoryEvent.zero, false)

/-- The request body as handed to json.Unmarshal: none stands for bytes that
    are not syntactically valid JSON, in which case Unmarshal reports an error
    and the event keeps its zero value. -/
def unmarshalPRQEventBody (body : Option JValue) : PRQEvent × Bool :=
  match body with
  | none => (PRQEvent.zero, false)
  | some v => unmarshalPRQEvent v

def unmarshalIssueEventBody (body : Option JValue) : IssueEvent × Bool :=
  match body with
  | none => (IssueEvent.zero, false)
  | some v => unmarshalIssueEvent v

def unmarshalRepositoryEventBody (body : Option JValue) : RepositoryEvent × Bool :=
  match body with
  | none => (RepositoryEvent.zero, false)
  | some v => unmarshalRepositoryEvent v

/-! ## The git.io URL shortener (source: func ShortenGHUrl) -/

/-- The part of an http.Response that ShortenGHUrl reads. -/
structure HTTPResponse where
  statusCode : Int
  status : String
  locationHeader : String
deriving DecidableEq, Repr

/-- The outcome of http.PostForm("http://git.io", ...): a possible transport
    error (the Go error return) and a possible response pointer (none models
    a nil pointer).  net/http guarantees that a non-nil error comes with a
    nil response. -/
abbrev PostEnv := Option String × Option HTTPResponse

/-- Source: func ShortenGHUrl(url2shorten string) (shorturl string, err error).
    On a transport error the function returns at once with the named returns
    ("", err), never touching resp; on a non-201 status it returns ("", err);
    on 201 it returns the Location header.  The result is wrapped in Option:
    none stands for a nil-pointer dereference panic, which the body would hit
    only if resp were nil with a nil error. -/
def ShortenGHUrl (env : PostEnv) : Option (String × Option String) :=
  match env.1 with
  | some e => some ("", some e)
  | none =>
    match env.2 with
    | none => none
    | some resp =>
      if resp.statusCode ≠ 201 then
        some ("", some ("git.io returned non 201 status: " ++ resp.status))
      else
        some (resp.locationHeader, none)

/-! ## Message formatting (source: the fmt.Sprintf calls in the webhook handler) -/

/-- Go map indexing act2color[a]: a missing key yields the zero value
    MIRCColorType(0), i.e. ColorWhite. -/
def act2color (a : String) : Option MIRCColorType :=
  if a = "opened" then some ColorGreen
  else if a = "reopened" then some ColorGreen
  else if a = "closed" then some ColorRed
  else if a = "created" then some ColorGreen
  else none

def act2colorGet (a : String) : MIRCColorType :=
  (act2color a).getD ColorWhite

/-- fmt.Sprintf("[%s] PRQ #%d %s by %s: %s. %s", ...) from the pull_request
    branch. -/
def formatPRQMsg (e : PRQEvent) (url : String) : String :=
  "[" ++ MIRCColor e.repository.name ColorPurple ++ "] PRQ #" ++ toString e.prq.number
    ++ " " ++ MIRCColor e.action (act2colorGet e.action) ++ " by " ++ e.sender.login
    ++ ": " ++ e.prq.title ++ ". " ++ url

/-- fmt.Sprintf("[%s] Issue #%d %s by %s: %s. %s", ...) from the issues
    branch. -/
def formatIssueMsg (e : IssueEvent) (url : String) : String :=
  "[" ++ MIRCColor e.repository.name ColorPurple ++ "] Issue #" ++ toString e.issue.number
    ++ " " ++ MIRCColor e.action (act2colorGet e.action) ++ " by " ++ e.sender.login
    ++ ": " ++ e.issue.title ++ ". " ++ url

/-- fmt.Sprintf("%s %s %s: %s", ...) from the repository branch. -/
def formatRepoMsg (e : RepositoryEvent) (url : String) : String :=
  e.sender.login ++ " " ++ MIRCColor e.action (act2colorGet e.action) ++ " "
    ++ MIRCColor e.repository.name ColorPurple ++ ": " ++ url

/-! ## The webhook handler (source: http.HandleFunc("/", ...)) -/

/-- One inbound webhook request as the handler sees it: the X-Hub-Signature
    header (none when absent), the X-Github-Event header (Header.Get yields
    "" when absent), and the body bytes as parsed JSON (none when not valid
    JSON). -/
structure WebhookRequest where
  hubSignature : Option String
  githubEvent : String
  body : Option JValue

/-- The list of messages the handler sends on the ircmsgs channel for one
    request.  The env argument is the outcome the network would give the
    ShortenGHUrl POST of this request.  The handler dispatches on the exact
    X-Github-Event value, unmarshals the body (logging but otherwise ignoring
    a decode error), and only the listed actions produce a message; a
    ShortenGHUrl panic (none) aborts the handler with nothing sent.  The
    X-Hub-Signature header is never consulted. -/
def webhookNotifications (r : WebhookRequest) (env : PostEnv) : List String :=
  if r.githubEvent = "" then []
  else if r.githubEvent = "pull_request" then
    let ev := (unmarshalPRQEventBody r.body).1
    if ev.action = "opened" ∨ ev.action = "closed" ∨ ev.action = "reopened" then
      match ShortenGHUrl env with
      | none => []
      | some (url, _) => [formatPRQMsg ev url]
    else []
  else if r.githubEvent = "issues" then
    let ev := (unmarshalIssueEventBody r.body).1
    if ev.action = "opened" ∨ ev.action = "closed" ∨ ev.action = "reopened" then
      match ShortenGHUrl env with
      | none => []
      | some (url, _) => [formatIssueMsg ev url]
    else []
  else if r.githubEvent = "repository" then
    let ev := (unmarshalRepositoryEventBody r.body).1
    if ev.action = "created" then
      match ShortenGHUrl env with
      | none => []
      | some (url, _) => [formatRepoMsg ev url]
    else []
  else []

/-! ## Config and the PRIVMSG mention handler -/

/-- Source: type Config struct { Channel, Server string; Nick, Ident, Name
    string; HostPort string }. -/
structure Config where
  channel : String
  server : String
  nick : String
  ident : String
  name : String
  hostPort : String
deriving DecidableEq, Repr

/-- strings.HasPrefix. -/
def hasPrefixStr (s p : String) : Bool :=
  p.toList.isPrefixOf s.toList

/-- strings.TrimPrefix: drops p from the front of s when present, else
    returns s unchanged. -/
def trimPrefixStr (s p : String) : String :=
  if hasPrefixStr s p then ⟨s.toList.drop p.toList.length⟩ else s

/-- strings.TrimSpace: drops leading and trailing whitespace. -/
def trimSpaceStr (s : String) : String :=
  ⟨((s.toList.dropWhile Char.isWhitespace).reverse.dropWhile Char.isWhitespace).reverse⟩

def greetingCmds : List String :=
  ["yo", "hi", "sup", "hello", "ohai", "wb", "evening", "morning", "afternoon"]

def reloadCmds : List String :=
  ["reload", "restart", "reboot", "eat toml"]

/-- The trimmed remainder of a mention line after the "nick:" marker. -/
def mentionRemainder (conf : Config) (lineText : String) : String :=
  trimSpaceStr (trimPrefixStr lineText (conf.nick ++ ":"))

/-- Source: the PRIVMSG handler.  When the line text starts with "nick:" the
    bot always answers on conf.Channel: a greeting gets "Well met, " plus the
    sender nick; the reload commands only carry a comment (output keeps its
    zero value ""); any other remainder also leaves output at "".  Without the
    mention marker nothing is sent (none). -/
def privmsgHandle (conf : Config) (lineNick lineText : String) : Option (String × String) :=
  if hasPrefixStr lineText (conf.nick ++ ":") then
    let t := mentionRemainder conf lineText
    let output : String :=
      if greetingCmds.contains t then "Well met, " ++ lineNick
      else if reloadCmds.contains t then ""
      else ""
    some (conf.channel, output)
  else none

/-! ## IRC event handlers as an event-to-effect function (source: the
    irc.HandleFunc registrations) -/

/-- An outbound effect of one IRC callback. -/
inductive ChatEffect where
  | log (msg : String)
  | sleepMinutes (n : Nat)
  | connectAttempt
  | joinChannel (c : String)
  | privmsg (target text : String)
deriving DecidableEq, Repr

/-- An inbound IRC protocol event with the data the handlers read. -/
inductive IrcEvent where
  | connected
  | disconnected
  | privmsgLine (nick text : String)
  | kick (nick : String)
deriving DecidableEq, Repr

def ChatEffect.isConnectAttempt : ChatEffect → Bool
  | .connectAttempt => true
  | _ => false

def IrcEvent.isDisconnected : IrcEvent → Bool
  | .disconnected => true
  | _ => false

/-- The effects of one registered handler on one event, read off the four
    irc.HandleFunc bodies.  The disconnected handler logs, sleeps one minute
    and calls irc.Connect() once; no counter or ceiling appears anywhere. -/
def handleEvent (conf : Config) (ev : IrcEvent) : List ChatEffect :=
  match ev with
  | .connected => [.log ("Connected to " ++ conf.server), .joinChannel conf.channel]
  | .disconnected =>
      [.log "Disconnected from server! Sleeping for 1 min and retrying",
       .sleepMinutes 1, .connectAttempt]
  | .privmsgLine nick text =>
      match privmsgHandle conf nick text with
      | some (ch, out) => [.privmsg ch out]
      | none => []
  | .kick nick =>
      [.log ";_; just got kicked", .joinChannel conf.channel,
       .privmsg conf.channel (nick ++ ": >:(")]

/-- The effects of a whole trace of protocol events, in order. -/
def processEvents (conf : Config) (evs : List IrcEvent) : List ChatEffect :=
  match evs with
  | [] => []
  | ev :: rest => handleEvent conf ev ++ processEvents conf rest

/-! ## The ircmsgs channel (source: ircmsgs := make(chan string, 10)) -/

/-- A Go buffered channel of strings viewed as a bounded FIFO queue. -/
structure BoundedQueue where
  capacity : Nat
  items : List String
deriving DecidableEq, Repr

/-- make(chan string, 10). -/
def mkIrcmsgs : BoundedQueue := ⟨10, []⟩

/-- A send on the channel: appended at the tail when a buffer slot is free;
    none models the sender blocking on a full buffer — the queue is unchanged
    and nothing is dropped. -/
def enqueue (q : BoundedQueue) (x : String) : Option BoundedQueue :=
  if q.items.length < q.capacity then some ⟨q.capacity, q.items ++ [x]⟩ else none

/-- A receive from the channel: takes the oldest element; none models the
    receiver blocking on an empty buffer. -/
def dequeue (q : BoundedQueue) : Option (String × BoundedQueue) :=
  match q.items with
  | [] => none
  | x :: xs => some (x, ⟨q.capacity, xs⟩)

inductive QOp where
  | enq (x : String)
  | deq
deriving DecidableEq, Repr

/-- Run a sequence of channel operations; none when some operation blocks.
    Returns the final queue and the received elements in receive order. -/
def runOps : BoundedQueue → List QOp → Option (BoundedQueue × List String)
  | q, [] => some (q, [])
  | q, .enq x :: rest =>
    match enqueue q x with
    | none => none
    | some q2 => runOps q2 rest
  | q, .deq :: rest =>
    match dequeue q with
    | none => none
    | some (y, q2) =>
      match runOps q2 rest with
      | none => none
      | some (qf, outs) => some (qf, y :: outs)

/-- The elements a sequence of operations sends, in send order. -/
def enqInputs : List QOp → List String
  | [] => []
  | .enq x :: rest => x :: enqInputs rest
  | .deq :: rest => enqInputs rest

/-! ## Concrete inputs used by the theorems below -/

/-- A well-formed pull-request payload: action opened, number 7, title
    "Fix bug", actor bob, repository foo. -/
def prOpenedBody : JValue :=
  .obj [("action", .str "opened"),
        ("pull_request", .obj [("number", .num 7), ("title", .str "Fix bug"),
                               ("html_url", .str "https://github.com/foo/bar/pull/7")]),
        ("sender", .obj [("login", .str "bob")]),
        ("repository", .obj [("name", .str "foo"),
                             ("html_url", .str "https://github.com/foo/bar")])]

/-- The specification test vector: action closed with the merged flag true on
    the pull-request object. -/
def prMergedClosedBody : JValue :=
  .obj [("action", .str "closed"),
        ("pull_request", .obj [("number", .num 7), ("title", .str "Fix bug"),
                               ("html_url", .str "https://github.com/foo/bar/pull/7"),
                               ("merged", .bool true)]),
        ("sender", .obj [("login", .str "bob")]),
        ("repository", .obj [("name", .str "foo"),
                             ("html_url", .str "https://github.com/foo/bar")])]

/-- A body that json.Unmarshal rejects (login is a number, not a string) yet
    partially populates: the action field decodes before the error. -/
def badDecodeBody : JValue :=
  .obj [("action", .str "opened"), ("sender", .obj [("login", .num 5)])]

/-- A git.io POST outcome: success, 201, short URL in the Location header. -/
def shOK : PostEnv := (none, some ⟨201, "201 Created", "http://git.io/abc"⟩)

/-- A git.io POST outcome: success, 201, Location http://git.io/x (the short
    URL of the specification test vector). -/
def shX : PostEnv := (none, some ⟨201, "201 Created", "http://git.io/x"⟩)

/-- A git.io POST outcome: transport error, nil response. -/
def shDown : PostEnv := (some "Post http://git.io: connection refused", none)

/-- A request with NO X-Hub-Signature header carrying a valid opened
    pull-request payload. -/
def rPROpened : WebhookRequest := ⟨none, "pull_request", some prOpenedBody⟩

/-- A concrete configuration for the PRIVMSG witnesses. -/
def confHook : Config := ⟨"#chan", "irc.example.org", "hook", "hook", "CaptainHook", ":1337"⟩

/-! ## Claim C1 — signature verification -/

/-- Claim C1 as stated is false: the handler never reads X-Hub-Signature.  A
    request with NO signature header whose event and action are recognized
    still enqueues a notification, so it is not dropped. -/
theorem c1_counterexample :
    webhookNotifications rPROpened shOK ≠ [] ∧ rPROpened.hubSignature = none := by
  exact ⟨by decide, rfl⟩

/-- Claim C1 amended: no signature verification is performed; the handler
    output is independent of the X-Hub-Signature header, so missing or
    malformed signatures change nothing and recognized events are processed
    regardless. -/
theorem c1_amended (r : WebhookRequest) (sig : Option String) (env : PostEnv) :
    webhookNotifications { r with hubSignature := sig } env =
      webhookNotifications r env := rfl

/-! ## Claim C2 — the merged flag -/

/-- Claim C2 as stated is false: on the specification test vector (action
    closed, merged true, repository foo, number 7, actor bob, title Fix bug,
    short URL http://git.io/x) the emitted message renders the raw action
    closed in its act2color color, and the fixed label Merged appears nowhere
    in it. -/
theorem c2_counterexample :
    webhookNotifications ⟨some "sha1=aa", "pull_request", some prMergedClosedBody⟩ shX
      = ["[" ++ MIRCColor "foo" ColorPurple ++ "] PRQ #7 " ++ MIRCColor "closed" ColorRed
          ++ " by bob: Fix bug. http://git.io/x"] ∧
    ¬ List.IsInfix "Merged".toList
        ("[" ++ MIRCColor "foo" ColorPurple ++ "] PRQ #7 " ++ MIRCColor "closed" ColorRed
          ++ " by bob: Fix bug. http://git.io/x").toList := by
  exact ⟨by decide, by decide⟩

/-- Claim C2 amended: the merged flag is not decoded at all — a merged key on
    the pull-request object has no effect on the decoded PRQ — and the action
    segment of the formatted message is always the raw Action string wrapped
    in its act2color color. -/
theorem c2_amended :
    (∀ (fs : List (String × JValue)) (init : PRQ × Bool) (v : JValue),
      unmarshalPRQFields (fs ++ [("merged", v)]) init = unmarshalPRQFields fs init) ∧
    (∀ (e : PRQEvent) (url : String),
      formatPRQMsg e url = "[" ++ MIRCColor e.repository.name ColorPurple ++ "] PRQ #"
        ++ toString e.prq.number ++ " " ++ MIRCColor e.action (act2colorGet e.action)
        ++ " by " ++ e.sender.login ++ ": " ++ e.prq.title ++ ". " ++ url) := by
  constructor
  · intro fs init v
    have h1 : keyIs "merged" "number" = false := by decide
    have h2 : keyIs "merged" "title" = false := by decide
    have h3 : keyIs "merged" "html_url" = false := by decide
    unfold unmarshalPRQFields
    rw [List.foldl_append]
    simp [prqFieldStep, h1, h2, h3]
  · intro e url
    rfl

/-! ## Claim C3 — failed shorten and the emitted URL -/

/-- Claim C3 as stated is false: on a transport error the notification is
    still emitted, but its URL segment is the empty string — the message ends
    with the separator and the original long URL (containing github.com)
    appears nowhere in it. -/
theorem c3_counterexample :
    webhookNotifications ⟨some "sha1=bb", "pull_request", some prOpenedBody⟩ shDown
      = ["[" ++ MIRCColor "foo" ColorPurple ++ "] PRQ #7 " ++ MIRCColor "opened" ColorGreen
          ++ " by bob: Fix bug. "] ∧
    ¬ List.IsInfix "github.com".toList
        ("[" ++ MIRCColor "foo" ColorPurple ++ "] PRQ #7 " ++ MIRCColor "opened" ColorGreen
          ++ " by bob: Fix bug. ").toList := by
  exact ⟨by decide, by decide⟩

/-- Claim C3 amended: when the shorten call fails (transport error or any
    non-201 status, i.e. ShortenGHUrl returns an empty short URL with an
    error), a recognized pull-request event still emits its notification, but
    the URL segment of the message is the empty string, not the original long
    URL. -/
theorem c3_amended (sig : Option String) (body : Option JValue) (env : PostEnv) (e : String)
    (hfail : ShortenGHUrl env = some ("", some e))
    (hact : (unmarshalPRQEventBody body).1.action = "opened" ∨
            (unmarshalPRQEventBody body).1.action = "closed" ∨
            (unmarshalPRQEventBody body).1.action = "reopened") :
    webhookNotifications ⟨sig, "pull_request", body⟩ env
      = [formatPRQMsg (unmarshalPRQEventBody body).1 ""] := by
  unfold webhookNotifications
  dsimp only
  rw [if_neg (by decide : ¬ (("pull_request" : String) = "")), if_pos rfl, if_pos hact, hfail]

/-- Witness for the amended claim C3 at a concrete failing input. -/
theorem c3_amended_witness :
    webhookNotifications ⟨some "sha1=bb", "pull_request", some prOpenedBody⟩ shDown
      = [formatPRQMsg (unmarshalPRQEventBody (some prOpenedBody)).1 ""] :=
  c3_amended (some "sha1=bb") (some prOpenedBody) shDown
    "Post http://git.io: connection refused" (by decide) (by decide)

/-! ## Claim C4 — event and action dispatch -/

/-- Claim C4: a request enqueues a notification only when the X-Github-Event
    header is exactly pull_request, issues or repository and the decoded
    Action lies in the variant-dependent set (opened, closed, reopened for
    pull requests and issues; created for repositories); every other marker
    or action yields zero notifications. -/
theorem c4_dispatch (r : WebhookRequest) (env : PostEnv)
    (h : webhookNotifications r env ≠ []) :
    (r.githubEvent = "pull_request" ∧
      ((unmarshalPRQEventBody r.body).1.action = "opened" ∨
       (unmarshalPRQEventBody r.body).1.action = "closed" ∨
       (unmarshalPRQEventBody r.body).1.action = "reopened")) ∨
    (r.githubEvent = "issues" ∧
      ((unmarshalIssueEventBody r.body).1.action = "opened" ∨
       (unmarshalIssueEventBody r.body).1.action = "closed" ∨
       (unmarshalIssueEventBody r.body).1.action = "reopened")) ∨
    (r.githubEvent = "repository" ∧
      (unmarshalRepositoryEventBody r.body).1.action = "created") := by
  by_cases h0 : r.githubEvent = ""
  · exact absurd (by simp [webhookNotifications, h0]) h
  by_cases h1 : r.githubEvent = "pull_request"
  · by_cases ha : ((unmarshalPRQEventBody r.body).1.action = "opened" ∨
       (unmarshalPRQEventBody r.body).1.action = "closed" ∨
       (unmarshalPRQEventBody r.body).1.action = "reopened")
    · exact Or.inl ⟨h1, ha⟩
    · exact absurd (by simp [webhookNotifications, h0, h1, ha]) h
  by_cases h2 : r.githubEvent = "issues"
  · by_cases ha : ((unmarshalIssueEventBody r.body).1.action = "opened" ∨
       (unmarshalIssueEventBody r.body).1.action = "closed" ∨
       (unmarshalIssueEventBody r.body).1.action = "reopened")
    · exact Or.inr (Or.inl ⟨h2, ha⟩)
    · exact absurd (by simp [webhookNotifications, h0, h1, h2, ha]) h
  by_cases h3 : r.githubEvent = "repository"
  · by_cases ha : (unmarshalRepositoryEventBody r.body).1.action = "created"
    · exact Or.inr (Or.inr ⟨h3, ha⟩)
    · exact absurd (by simp [webhookNotifications, h0, h1, h2, h3, ha]) h
  · exact absurd (by simp [webhookNotifications, h0, h1, h2, h3]) h

/-- Witness for claim C4 at a concrete enqueuing request. -/
theorem c4_dispatch_witness :
    (rPROpened.githubEvent = "pull_request" ∧
      ((unmarshalPRQEventBody rPROpened.body).1.action = "opened" ∨
       (unmarshalPRQEventBody rPROpened.body).1.action = "closed" ∨
       (unmarshalPRQEventBody rPROpened.body).1.action = "reopened")) ∨
    (rPROpened.githubEvent = "issues" ∧
      ((unmarshalIssueEventBody rPROpened.body).1.action = "opened" ∨
       (unmarshalIssueEventBody rPROpened.body).1.action = "closed" ∨
       (unmarshalIssueEventBody rPROpened.body).1.action = "reopened")) ∨
    (rPROpened.githubEvent = "repository" ∧
      (unmarshalRepositoryEventBody rPROpened.body).1.action = "created") :=
  c4_dispatch rPROpened shOK (by decide)

/-! ## Claim C5 — the color wrapping format -/

/-- Claim C5 as stated is false: the foreground code is not zero-padded to
    two digits (green is the single digit 3) and a comma plus the background
    code 99 follows it, so the output differs from the shape the
    specification describes. -/
theorem c5_counterexample :
    MIRCColor "x" ColorGreen ≠ specColorWrap "x" ColorGreen ∧
    MIRCColor "x" ColorGreen = ctrlStr ++ "3,99x" ++ ctrlStr := by
  exact ⟨by decide, by decide⟩

/-- Claim C5 amended, at the character level: one leading control byte, the
    decimal foreground code with no zero padding, a comma, the fixed
    background code 99, the text, and one trailing reset control byte. -/
theorem c5_amended (s : String) (fg : MIRCColorType) :
    (MIRCColor s fg).data =
      ctrlChar :: ((toString fg).data ++ ',' :: '9' :: '9' :: (s.data ++ [ctrlChar])) := by
  simp [MIRCColor, ctrlStr, String.data_append]

/-! ## Claim C6 — decode failures do not abort -/

/-- Claim C6 as stated is false: a body whose deserialization fails (login is
    a number) still enqueues a notification built from the partially
    populated fields, because the handler only logs the Unmarshal error and
    the action field was populated before the error. -/
theorem c6_counterexample :
    (unmarshalPRQEvent badDecodeBody).2 = false ∧
    webhookNotifications ⟨some "sha1=deadbeef", "pull_request", some badDecodeBody⟩ shOK
      = ["[" ++ MIRCColor "" ColorPurple ++ "] PRQ #0 " ++ MIRCColor "opened" ColorGreen
          ++ " by : . http://git.io/abc"] := by
  exact ⟨by decide, by decide⟩

/-- Claim C6 amended: a deserialization failure is logged but does not abort
    the request; the handler keeps the partially populated event, and exactly
    one (possibly partial) notification is enqueued when the populated Action
    is recognized, zero otherwise. -/
theorem c6_amended (sig : Option String) (body : Option JValue) (env : PostEnv)
    (hdec : (unmarshalPRQEventBody body).2 = false)
    (hsome : (ShortenGHUrl env).isSome = true) :
    (webhookNotifications ⟨sig, "pull_request", body⟩ env).length =
      (if (unmarshalPRQEventBody body).1.action = "opened" ∨
          (unmarshalPRQEventBody body).1.action = "closed" ∨
          (unmarshalPRQEventBody body).1.action = "reopened" then 1 else 0) := by
  obtain ⟨⟨url, err⟩, hu⟩ := Option.isSome_iff_exists.mp hsome
  unfold webhookNotifications
  dsimp only
  rw [if_neg (by decide : ¬ (("pull_request" : String) = "")), if_pos rfl]
  by_cases ha : ((unmarshalPRQEventBody body).1.action = "opened" ∨
      (unmarshalPRQEventBody body).1.action = "closed" ∨
      (unmarshalPRQEventBody body).1.action = "reopened")
  · rw [if_pos ha, if_pos ha, hu]
    rfl
  · rw [if_neg ha, if_neg ha]
    rfl

/-- Witness for the amended claim C6 at a concrete failing body. -/
theorem c6_amended_witness :
    (webhookNotifications ⟨some "sha1=deadbeef", "pull_request", some badDecodeBody⟩ shOK).length =
      (if (unmarshalPRQEventBody (some badDecodeBody)).1.action = "opened" ∨
          (unmarshalPRQEventBody (some badDecodeBody)).1.action = "closed" ∨
          (unmarshalPRQEventBody (some badDecodeBody)).1.action = "reopened" then 1 else 0) :=
  c6_amended (some "sha1=deadbeef") (some badDecodeBody) shOK (by decide) (by decide)

/-! ## Claim C7 — reconnect on disconnect -/

/-- Claim C7: every observed disconnect makes the session log, wait one
    minute and then attempt one reconnect, in that order; over any trace of
    protocol events the number of reconnect attempts equals the number of
    disconnects — there is no retry counter or ceiling, so attempts continue
    for as long as the process keeps observing disconnects. -/
theorem c7_reconnect (conf : Config) (evs : List IrcEvent) :
    handleEvent conf .disconnected =
      [.log "Disconnected from server! Sleeping for 1 min and retrying",
       .sleepMinutes 1, .connectAttempt] ∧
    (processEvents conf evs).countP ChatEffect.isConnectAttempt
      = evs.countP IrcEvent.isDisconnected := by
  refine ⟨rfl, ?_⟩
  induction evs with
  | nil => rfl
  | cons ev rest ih =>
    rw [processEvents, List.countP_append, List.countP_cons, ih]
    have hev : (handleEvent conf ev).countP ChatEffect.isConnectAttempt
        = if IrcEvent.isDisconnected ev then 1 else 0 := by
      cases ev with
      | connected => rfl
      | disconnected => rfl
      | privmsgLine nick text =>
        rw [handleEvent]
        cases hp : privmsgHandle conf nick text with
        | none => rfl
        | some p => cases p with | mk ch out => rfl
      | kick nick => rfl
    rw [hev]
    omega

/-! ## Claim C8 — the notification queue -/

/-- Inversion of a completed channel send: the element went to the tail and
    the capacity is unchanged. -/
theorem enqueue_eq_some {q : BoundedQueue} {x : String} {q2 : BoundedQueue}
    (h : enqueue q x = some q2) :
    q2.items = q.items ++ [x] ∧ q2.capacity = q.capacity := by
  unfold enqueue at h
  split at h
  · cases h
    exact ⟨rfl, rfl⟩
  · cases h

/-- Inversion of a completed channel receive: the oldest element came off the
    head and the capacity is unchanged. -/
theorem dequeue_eq_some {q : BoundedQueue} {y : String} {q2 : BoundedQueue}
    (h : dequeue q = some (y, q2)) :
    q.items = y :: q2.items ∧ q2.capacity = q.capacity := by
  unfold dequeue at h
  split at h
  · cases h
  · rename_i z zs hzs
    cases h
    exact ⟨hzs, rfl⟩

/-- Any completed run of channel operations receives elements in exactly the
    order they were sent: the received list followed by the leftover buffer
    equals the initial buffer followed by the sent elements. -/
theorem runOps_fifo : ∀ (ops : List QOp) (q qf : BoundedQueue) (outs : List String),
    runOps q ops = some (qf, outs) → outs ++ qf.items = q.items ++ enqInputs ops := by
  intro ops
  induction ops with
  | nil =>
    intro q qf outs h
    rw [runOps] at h
    cases h
    simp [enqInputs]
  | cons op rest ih =>
    intro q qf outs h
    cases op with
    | enq x =>
      rw [runOps] at h
      cases he : enqueue q x with
      | none => rw [he] at h; cases h
      | some q2 =>
        rw [he] at h
        obtain ⟨hitems, _⟩ := enqueue_eq_some he
        have := ih q2 qf outs h
        rw [hitems] at this
        simpa [enqInputs] using this
    | deq =>
      rw [runOps] at h
      cases hd : dequeue q with
      | none => rw [hd] at h; cases h
      | some p =>
        cases p with
        | mk y q2 =>
          rw [hd] at h
          dsimp only at h
          cases hr : runOps q2 rest with
          | none => rw [hr] at h; cases h
          | some pr =>
            cases pr with
            | mk qf2 outs2 =>
              rw [hr] at h
              cases h
              obtain ⟨hitems, _⟩ := dequeue_eq_some hd
              have := ih q2 qf outs2 hr
              rw [enqInputs, hitems]
              simpa using this

/-- Claim C8: the ircmsgs channel has fixed capacity 10; a send on a full
    buffer does not complete and drops nothing, a completed send appends at
    the tail, and every completed run of sends and receives hands elements
    out in exactly send order. -/
theorem c8_queue :
    mkIrcmsgs.capacity = 10 ∧
    (∀ (q : BoundedQueue) (x : String), q.items.length = q.capacity → enqueue q x = none) ∧
    (∀ (q : BoundedQueue) (x : String) (q2 : BoundedQueue), enqueue q x = some q2 →
      q2.items = q.items ++ [x] ∧ q2.capacity = q.capacity) ∧
    (∀ (ops : List QOp) (q qf : BoundedQueue) (outs : List String),
      runOps q ops = some (qf, outs) → outs ++ qf.items = q.items ++ enqInputs ops) := by
  refine ⟨rfl, ?_, fun q x q2 h => enqueue_eq_some h, runOps_fifo⟩
  intro q x h
  unfold enqueue
  rw [h]
  simp

/-- Witness for claim C8: a full buffer refuses a send, and a concrete run
    receives in send order. -/
theorem c8_queue_witness :
    enqueue ⟨10, ["a", "b", "c", "d", "e", "f", "g", "h", "i", "j"]⟩ "k" = none ∧
    (["a", "b"] : List String) ++ (⟨10, []⟩ : BoundedQueue).items
      = mkIrcmsgs.items ++ enqInputs [QOp.enq "a", QOp.enq "b", QOp.deq, QOp.deq] :=
  ⟨c8_queue.2.1 ⟨10, ["a", "b", "c", "d", "e", "f", "g", "h", "i", "j"]⟩ "k" (by decide),
   c8_queue.2.2.2 [QOp.enq "a", QOp.enq "b", QOp.deq, QOp.deq] mkIrcmsgs ⟨10, []⟩ ["a", "b"]
     (by decide)⟩

/-! ## Claim C9 — mention replies -/

/-- Claim C9: whenever a PRIVMSG text begins with the bot nick followed by a
    colon, the bot sends a reply to the configured channel, and when the
    trimmed remainder is neither a recognized greeting nor a reload command
    the reply text is empty. -/
theorem c9_reply (conf : Config) (lineNick lineText : String)
    (h : hasPrefixStr lineText (conf.nick ++ ":") = true) :
    ∃ out, privmsgHandle conf lineNick lineText = some (conf.channel, out) ∧
      (greetingCmds.contains (mentionRemainder conf lineText) = false →
       reloadCmds.contains (mentionRemainder conf lineText) = false →
       out = "") := by
  refine ⟨if greetingCmds.contains (mentionRemainder conf lineText) then
            "Well met, " ++ lineNick
          else if reloadCmds.contains (mentionRemainder conf lineText) then "" else "",
          ?_, ?_⟩
  · unfold privmsgHandle
    rw [h]
    rfl
  · intro h1 h2
    rw [h1, h2]
    rfl

/-- Witness for claim C9: an unrecognized command after the mention marker
    gets an empty reply on the configured channel. -/
theorem c9_reply_witness :
    ∃ out, privmsgHandle confHook "alice" "hook: frobnicate" = some (confHook.channel, out) ∧
      (greetingCmds.contains (mentionRemainder confHook "hook: frobnicate") = false →
       reloadCmds.contains (mentionRemainder confHook "hook: frobnicate") = false →
       out = "") :=
  c9_reply confHook "alice" "hook: frobnicate" (by decide)

/-! ## Claim C10 — transport errors in ShortenGHUrl -/

/-- Claim C10: on a transport error ShortenGHUrl returns at once with an
    empty short URL and the error, whatever the response pointer holds — the
    response is never dereferenced (the result is some, never the panic value
    none). -/
theorem c10_no_panic (e : String) (resp : Option HTTPResponse) :
    ShortenGHUrl (some e, resp) = some ("", some e) := rfl

end CaptainHook
